import Mathlib

/-!
# Verification of the dbc-backlight-service brightness control engine

Shallow embedding of the repository's discrete hysteresis state machine
(`internal/backlight`, the state-machine variant with five ordered levels),
the redis sensor gateway (`internal/redis/redis.go`) and the control-loop
adjustment cycle (`internal/service/service.go`), with theorems about the
behaviour the specification describes.

Machine integers are modelled as `Int` (Go `int` overflow is irrelevant at
the value ranges involved; no arithmetic here can overflow 64 bits from the
configured inputs).  Fallible operations are modelled with `Option`/`Except`;
the effect of a cycle on the mutable service state is explicit state passing.
-/

namespace DbcBacklight

/-- The five ordered brightness levels of the state machine
(`BrightnessLevel` constants in the backlight package). -/
inductive BrightnessLevel where
  | LevelVeryLow
  | LevelLow
  | LevelMid
  | LevelHigh
  | LevelVeryHigh
deriving DecidableEq, Repr, Fintype

open BrightnessLevel

/-- Per-level configuration (`StateConfig` in the backlight package):
brightness value to write, and the up/down transition thresholds in lux
(`0` marks an absent threshold at the extremes). -/
structure StateConfig where
  Brightness : Int
  ThresholdUp : Int
  ThresholdDown : Int
deriving DecidableEq, Repr

/-- The static level table built by the backlight package's `New`:
`ThresholdDown` of `VeryLow` and `ThresholdUp` of `VeryHigh` are hardwired
to `0` (no lower / no higher state). -/
def NewStates
    (veryLowBrightness lowBrightness midBrightness highBrightness veryHighBrightness
     veryLowToLowThreshold lowToMidThreshold midToHighThreshold highToVeryHighThreshold
     lowToVeryLowThreshold midToLowThreshold highToMidThreshold veryHighToHighThreshold :
     Int) :
    BrightnessLevel → StateConfig
  | LevelVeryLow => ⟨veryLowBrightness, veryLowToLowThreshold, 0⟩
  | LevelLow => ⟨lowBrightness, lowToMidThreshold, lowToVeryLowThreshold⟩
  | LevelMid => ⟨midBrightness, midToHighThreshold, midToLowThreshold⟩
  | LevelHigh => ⟨highBrightness, highToVeryHighThreshold, highToMidThreshold⟩
  | LevelVeryHigh => ⟨veryHighBrightness, 0, veryHighToHighThreshold⟩

/-- The level table with the default configuration values of
`internal/config/config.go` (also the values used by the test suite). -/
def defaultStates : BrightnessLevel → StateConfig :=
  NewStates 9350 9500 9700 9950 10240 8 18 40 80 5 15 35 70

/-- The level-transition part of `Manager.AdjustBacklight`: the `switch` on
`m.currentLevel` that checks `ThresholdUp > 0 && illuminance > ThresholdUp`
first and `ThresholdDown > 0 && illuminance < ThresholdDown` second, moving
one level at a time. -/
def adjustLevel (states : BrightnessLevel → StateConfig)
    (currentLevel : BrightnessLevel) (illuminance : Int) : BrightnessLevel :=
  let currentState := states currentLevel
  match currentLevel with
  | LevelVeryLow =>
      if currentState.ThresholdUp > 0 ∧ illuminance > currentState.ThresholdUp then
        LevelLow
      else LevelVeryLow
  | LevelLow =>
      if currentState.ThresholdUp > 0 ∧ illuminance > currentState.ThresholdUp then
        LevelMid
      else if currentState.ThresholdDown > 0 ∧ illuminance < currentState.ThresholdDown then
        LevelVeryLow
      else LevelLow
  | LevelMid =>
      if currentState.ThresholdUp > 0 ∧ illuminance > currentState.ThresholdUp then
        LevelHigh
      else if currentState.ThresholdDown > 0 ∧ illuminance < currentState.ThresholdDown then
        LevelLow
      else LevelMid
  | LevelHigh =>
      if currentState.ThresholdUp > 0 ∧ illuminance > currentState.ThresholdUp then
        LevelVeryHigh
      else if currentState.ThresholdDown > 0 ∧ illuminance < currentState.ThresholdDown then
        LevelMid
      else LevelHigh
  | LevelVeryHigh =>
      if currentState.ThresholdDown > 0 ∧ illuminance < currentState.ThresholdDown then
        LevelHigh
      else LevelVeryHigh

/-- `Manager.AdjustBacklight` as a pure function: the new `currentLevel`
together with the brightness value whose hardware write it triggers
(`SetBrightness(newState.Brightness)` exactly when the level changed,
`none` otherwise). -/
def AdjustBacklight (states : BrightnessLevel → StateConfig)
    (currentLevel : BrightnessLevel) (illuminance : Int) :
    BrightnessLevel × Option Int :=
  let previousLevel := currentLevel
  let newLevel := adjustLevel states currentLevel illuminance
  let newState := states newLevel
  if newLevel ≠ previousLevel then (newLevel, some newState.Brightness)
  else (newLevel, none)

/-- The next-higher level in the order (identity at the top, which the
machine can never use because `VeryHigh` has `ThresholdUp = 0`). -/
def nextUp : BrightnessLevel → BrightnessLevel
  | LevelVeryLow => LevelLow
  | LevelLow => LevelMid
  | LevelMid => LevelHigh
  | LevelHigh => LevelVeryHigh
  | LevelVeryHigh => LevelVeryHigh

/-- The next-lower level in the order (identity at the bottom, which the
machine can never use because `VeryLow` has `ThresholdDown = 0`). -/
def nextDown : BrightnessLevel → BrightnessLevel
  | LevelVeryLow => LevelVeryLow
  | LevelLow => LevelVeryLow
  | LevelMid => LevelLow
  | LevelHigh => LevelMid
  | LevelVeryHigh => LevelHigh

/-- Rank of a level in the brightness order, `0` (darkest) to `4`. -/
def levelRank : BrightnessLevel → Nat
  | LevelVeryLow => 0
  | LevelLow => 1
  | LevelMid => 2
  | LevelHigh => 3
  | LevelVeryHigh => 4

/-- The new level is the first component of `AdjustBacklight`. -/
theorem AdjustBacklight_fst (states : BrightnessLevel → StateConfig)
    (L : BrightnessLevel) (v : Int) :
    (AdjustBacklight states L v).1 = adjustLevel states L v := by
  by_cases h : adjustLevel states L v = L <;> simp [AdjustBacklight, h]

/-- Both comparisons being strict, an illuminance lying (inclusively)
between a level's positive down and up thresholds triggers no transition. -/
theorem adjustLevel_stay (states : BrightnessLevel → StateConfig)
    (L : BrightnessLevel) (v : Int)
    (hup : 0 < (states L).ThresholdUp) (hdown : 0 < (states L).ThresholdDown)
    (hlo : (states L).ThresholdDown ≤ v) (hhi : v ≤ (states L).ThresholdUp) :
    adjustLevel states L v = L := by
  cases L <;> simp only [adjustLevel] <;> split_ifs <;>
    first | rfl | (exfalso; omega)

/-- C1: for a level whose up and down thresholds are both positive, any
illuminance between them inclusive (the hysteresis dead zone, boundaries
included because both comparisons are strict) leaves the level unchanged and
signals no brightness write. -/
theorem adjust_dead_zone (states : BrightnessLevel → StateConfig)
    (L : BrightnessLevel) (v : Int)
    (hup : 0 < (states L).ThresholdUp) (hdown : 0 < (states L).ThresholdDown)
    (hlo : (states L).ThresholdDown ≤ v) (hhi : v ≤ (states L).ThresholdUp) :
    AdjustBacklight states L v = (L, none) := by
  have hstay := adjustLevel_stay states L v hup hdown hlo hhi
  unfold AdjustBacklight
  simp [hstay]

/-- Witness for `adjust_dead_zone` at the default configuration:
`Mid` has thresholds `15`/`40`, and illuminance `40` (the exact upper
boundary) stays at `Mid` with no write. -/
theorem adjust_dead_zone_witness :
    (0 < (defaultStates LevelMid).ThresholdUp ∧
      0 < (defaultStates LevelMid).ThresholdDown ∧
      (defaultStates LevelMid).ThresholdDown ≤ (40 : Int) ∧
      (40 : Int) ≤ (defaultStates LevelMid).ThresholdUp) ∧
    AdjustBacklight defaultStates LevelMid 40 = (LevelMid, none) :=
  ⟨by decide,
   adjust_dead_zone defaultStates LevelMid 40 (by decide) (by decide)
     (by decide) (by decide)⟩

/-- C2: with the table shape `New` builds (no up threshold at the top, no
down threshold at the bottom, all thresholds nonnegative), one call moves
exactly one level up when the up threshold is nonzero and exceeded, else
exactly one level down when the down threshold is nonzero and undercut,
else stays; the upward check takes precedence and the rank changes by at
most one, so no level is skipped. -/
theorem adjust_one_step (states : BrightnessLevel → StateConfig)
    (L : BrightnessLevel) (v : Int)
    (htop : (states LevelVeryHigh).ThresholdUp = 0)
    (hbot : (states LevelVeryLow).ThresholdDown = 0)
    (hups : ∀ M, 0 ≤ (states M).ThresholdUp)
    (hdowns : ∀ M, 0 ≤ (states M).ThresholdDown) :
    adjustLevel states L v =
      (if (states L).ThresholdUp ≠ 0 ∧ (states L).ThresholdUp < v then nextUp L
       else if (states L).ThresholdDown ≠ 0 ∧ v < (states L).ThresholdDown then nextDown L
       else L) ∧
    levelRank (adjustLevel states L v) ≤ levelRank L + 1 ∧
    levelRank L ≤ levelRank (adjustLevel states L v) + 1 := by
  have hu := hups L
  have hd := hdowns L
  constructor
  · cases L <;> simp only [adjustLevel, nextUp, nextDown] <;> split_ifs <;>
      first | rfl | (exfalso; omega)
  · cases L <;> simp only [adjustLevel] <;> split_ifs <;> simp [levelRank]

/-- Witness for `adjust_one_step` at the default configuration:
from `Mid` with illuminance `41` (above the up threshold `40`) the machine
moves exactly one step up, to `High`. -/
theorem adjust_one_step_witness :
    ((defaultStates LevelVeryHigh).ThresholdUp = 0 ∧
      (defaultStates LevelVeryLow).ThresholdDown = 0 ∧
      (∀ M, 0 ≤ (defaultStates M).ThresholdUp) ∧
      (∀ M, 0 ≤ (defaultStates M).ThresholdDown)) ∧
    (adjustLevel defaultStates LevelMid 41 =
      (if (defaultStates LevelMid).ThresholdUp ≠ 0 ∧
          (defaultStates LevelMid).ThresholdUp < 41 then nextUp LevelMid
       else if (defaultStates LevelMid).ThresholdDown ≠ 0 ∧
          (41 : Int) < (defaultStates LevelMid).ThresholdDown then nextDown LevelMid
       else LevelMid) ∧
    levelRank (adjustLevel defaultStates LevelMid 41) ≤ levelRank LevelMid + 1 ∧
    levelRank LevelMid ≤ levelRank (adjustLevel defaultStates LevelMid 41) + 1) :=
  ⟨⟨by decide, by decide, by decide, by decide⟩,
   adjust_one_step defaultStates LevelMid 41 (by decide) (by decide)
     (by decide) (by decide)⟩

/-- C8: assuming every level above `VeryLow` has a positive down threshold,
any illuminance `v ≤ 0` keeps `VeryLow` fixed, moves every higher level
exactly one step down, and drives any starting level to `VeryLow` within
four transitions. -/
theorem negative_illuminance_resolves_verylow
    (states : BrightnessLevel → StateConfig) (L : BrightnessLevel) (v : Int)
    (hL : 0 < (states LevelLow).ThresholdDown)
    (hM : 0 < (states LevelMid).ThresholdDown)
    (hH : 0 < (states LevelHigh).ThresholdDown)
    (hVH : 0 < (states LevelVeryHigh).ThresholdDown)
    (hv : v ≤ 0) :
    adjustLevel states LevelVeryLow v = LevelVeryLow ∧
    (L ≠ LevelVeryLow → adjustLevel states L v = nextDown L) ∧
    (fun l => adjustLevel states l v)^[4] L = LevelVeryLow := by
  have step1 : adjustLevel states LevelVeryLow v = LevelVeryLow := by
    simp only [adjustLevel]
    split_ifs <;> first | rfl | (exfalso; omega)
  have step2 : adjustLevel states LevelLow v = LevelVeryLow := by
    simp only [adjustLevel]
    split_ifs <;> first | rfl | (exfalso; omega)
  have step3 : adjustLevel states LevelMid v = LevelLow := by
    simp only [adjustLevel]
    split_ifs <;> first | rfl | (exfalso; omega)
  have step4 : adjustLevel states LevelHigh v = LevelMid := by
    simp only [adjustLevel]
    split_ifs <;> first | rfl | (exfalso; omega)
  have step5 : adjustLevel states LevelVeryHigh v = LevelHigh := by
    simp only [adjustLevel]
    split_ifs <;> first | rfl | (exfalso; omega)
  refine ⟨step1, ?_, ?_⟩
  · cases L <;> simp [nextDown, step1, step2, step3, step4, step5]
  · cases L <;>
      simp [Function.iterate_succ, Function.iterate_zero, Function.comp,
        step1, step2, step3, step4, step5]

/-- Witness for `negative_illuminance_resolves_verylow` at the default
configuration with illuminance `0`, starting from `VeryHigh`. -/
theorem negative_illuminance_resolves_verylow_witness :
    (0 < (defaultStates LevelLow).ThresholdDown ∧
      0 < (defaultStates LevelMid).ThresholdDown ∧
      0 < (defaultStates LevelHigh).ThresholdDown ∧
      0 < (defaultStates LevelVeryHigh).ThresholdDown ∧
      (0 : Int) ≤ 0) ∧
    (adjustLevel defaultStates LevelVeryLow 0 = LevelVeryLow ∧
      (LevelVeryHigh ≠ LevelVeryLow →
        adjustLevel defaultStates LevelVeryHigh 0 = nextDown LevelVeryHigh) ∧
      (fun l => adjustLevel defaultStates l 0)^[4] LevelVeryHigh = LevelVeryLow) :=
  ⟨by decide,
   negative_illuminance_resolves_verylow defaultStates LevelVeryHigh 0
     (by decide) (by decide) (by decide) (by decide) (by decide)⟩

/-- Modelled from the spec: the current backlight package also has a
`closestLevel` method (exercised by `TestClosestLevel` and used by the
hardware-seeded constructor tested in `TestInitialStateFromHardware`), whose
body is not among the available source files.  Per the spec it picks, over
the five configured brightness values, the level whose brightness has
minimum absolute distance to the given value, ties broken toward the lower
(darker) level; scanning the levels in ascending order and replacing the
best candidate only on a strictly smaller distance realises exactly that. -/
def closestLevel (states : BrightnessLevel → StateConfig) (value : Int) :
    BrightnessLevel :=
  [LevelLow, LevelMid, LevelHigh, LevelVeryHigh].foldl
    (fun best l =>
      if ((states l).Brightness - value).natAbs
          < ((states best).Brightness - value).natAbs then l else best)
    LevelVeryLow

/-- Modelled from the spec: the current constructor seeds `currentLevel`
from the actual hardware brightness via `closestLevel`, falling back to
`Mid` when the hardware read fails (`TestInitialStateFallback`). -/
def initialLevel (states : BrightnessLevel → StateConfig)
    (hwRead : Option Int) : BrightnessLevel :=
  match hwRead with
  | some b => closestLevel states b
  | none => LevelMid

/-- C4: the seeded level minimises the absolute distance between the read
hardware brightness and the configured brightness values, ties going to the
lower level; a failed hardware read seeds `Mid`; at the default brightness
table a read of `9425` (the exact `9350`/`9500` midpoint) seeds `VeryLow`
and `9426` seeds `Low`. -/
theorem closestLevel_spec (states : BrightnessLevel → StateConfig)
    (value : Int) (M : BrightnessLevel) :
    ((states (closestLevel states value)).Brightness - value).natAbs ≤
      ((states M).Brightness - value).natAbs ∧
    (((states M).Brightness - value).natAbs =
        ((states (closestLevel states value)).Brightness - value).natAbs →
      levelRank (closestLevel states value) ≤ levelRank M) ∧
    initialLevel states (some value) = closestLevel states value ∧
    initialLevel states none = LevelMid ∧
    closestLevel defaultStates 9425 = LevelVeryLow ∧
    closestLevel defaultStates 9426 = LevelLow := by
  refine ⟨?_, ?_, rfl, rfl, by decide, by decide⟩
  · simp only [closestLevel, List.foldl]
    cases M <;> split_ifs <;> omega
  · simp only [closestLevel, List.foldl]
    cases M <;> split_ifs <;> intro htie <;> simp only [levelRank] <;> omega

/-- Witness for `closestLevel_spec` at the default brightness table:
`closestLevel 9425` is `VeryLow`, which ties with `Low` (both at distance
`75`) and wins the tie as the lower level. -/
theorem closestLevel_spec_witness :
    ((defaultStates (closestLevel defaultStates 9425)).Brightness - 9425).natAbs ≤
      ((defaultStates LevelLow).Brightness - 9425).natAbs ∧
    (((defaultStates LevelLow).Brightness - 9425).natAbs =
        ((defaultStates (closestLevel defaultStates 9425)).Brightness - 9425).natAbs →
      levelRank (closestLevel defaultStates 9425) ≤ levelRank LevelLow) ∧
    initialLevel defaultStates (some 9425) = closestLevel defaultStates 9425 ∧
    initialLevel defaultStates none = LevelMid ∧
    closestLevel defaultStates 9425 = LevelVeryLow ∧
    closestLevel defaultStates 9426 = LevelLow :=
  closestLevel_spec defaultStates 9425 LevelLow

/-- C7: `AdjustBacklight` signals a hardware write exactly when the
resulting level differs from the previous one, and the value written is the
new level's configured brightness; when the level is unchanged no write is
signalled, leaving the hardware control path untouched. -/
theorem adjust_write_iff (states : BrightnessLevel → StateConfig)
    (L : BrightnessLevel) (v : Int) :
    (AdjustBacklight states L v).2 =
      (if (AdjustBacklight states L v).1 = L then none
       else some ((states (AdjustBacklight states L v).1).Brightness)) := by
  by_cases h : adjustLevel states L v = L <;> simp [AdjustBacklight, h]

/-! ## Control loop (`internal/service/service.go`) -/

/-- The absolute brightness change computed in
`adjustBacklightBasedOnIlluminance`: `brightness - lastPublished`, negated
when negative. -/
def brightnessChange (brightness lastPublished : Int) : Int :=
  let change := brightness - lastPublished
  if change < 0 then -change else change

/-- The republish gate condition of `adjustBacklightBasedOnIlluminance`:
`brightnessChange >= HysteresisThreshold || lastPublishedBrightness == -1`. -/
def publishGate (threshold lastPublished brightness : Int) : Bool :=
  decide (brightnessChange brightness lastPublished ≥ threshold) ||
    decide (lastPublished = -1)

/-- The effect of the gate on `lastPublishedBrightness`: when the gate fires
and the store write succeeds, it becomes the readback value; a skipped or
failed publish leaves it unchanged. -/
def publishUpdate (threshold lastPublished brightness : Int)
    (publishOk : Bool) : Int :=
  if publishGate threshold lastPublished brightness then
    if publishOk then brightness else lastPublished
  else lastPublished

/-- C3: the gate fires iff `lastPublishedBrightness` is the sentinel `-1` or
the absolute delta reaches the threshold; a fired gate with a successful
store write sets `lastPublishedBrightness` to the readback, a silent gate
leaves it unchanged; with `lastPublished = 9500` and threshold `512` a
readback of `9600` does not publish while `10100` publishes and updates;
with the sentinel the gate always fires. -/
theorem republish_gate_spec (threshold lastPublished brightness : Int)
    (publishOk : Bool) :
    (publishGate threshold lastPublished brightness = true ↔
      lastPublished = -1 ∨ threshold ≤ |brightness - lastPublished|) ∧
    (publishGate threshold lastPublished brightness = true → publishOk = true →
      publishUpdate threshold lastPublished brightness publishOk = brightness) ∧
    (publishGate threshold lastPublished brightness = false →
      publishUpdate threshold lastPublished brightness publishOk = lastPublished) ∧
    publishGate 512 9500 9600 = false ∧
    publishUpdate 512 9500 9600 publishOk = 9500 ∧
    publishGate 512 9500 10100 = true ∧
    publishUpdate 512 9500 10100 true = 10100 ∧
    publishGate threshold (-1) brightness = true := by
  have habs : |brightness - lastPublished| =
      brightnessChange brightness lastPublished := by
    rcases le_or_lt 0 (brightness - lastPublished) with h | h
    · rw [abs_of_nonneg h]
      simp only [brightnessChange]
      omega
    · rw [abs_of_neg h]
      simp only [brightnessChange]
      omega
  refine ⟨?_, ?_, ?_, by decide, ?_, by decide, by decide, ?_⟩
  · rw [habs]
    simp only [publishGate, Bool.or_eq_true, decide_eq_true_eq]
    tauto
  · intro hgate hok
    simp [publishUpdate, hgate, hok]
  · intro hgate
    simp [publishUpdate, hgate]
  · have : publishGate 512 9500 9600 = false := by decide
    simp [publishUpdate, this]
  · simp [publishGate]

/-- Witness for `republish_gate_spec`: the gate is fired at
`lastPublished = 9500`, threshold `512`, readback `10100`, and a successful
publish updates to `10100`. -/
theorem republish_gate_spec_witness :
    (publishGate 512 9500 10100 = true ∧ (true : Bool) = true) ∧
    publishUpdate 512 9500 10100 true = 10100 :=
  ⟨⟨by decide, rfl⟩, ((republish_gate_spec 512 9500 10100 true).2.1
    (by decide) rfl)⟩

/-- The inputs one adjustment cycle receives from the outside world:
the illuminance read from the store (`none` = read error), whether a
hardware brightness write succeeds, the hardware brightness readback
(`none` = readback error), and whether the store publish succeeds. -/
structure CycleEnv where
  illum : Option Int
  writeOk : Bool
  readback : Option Int
  publishOk : Bool
deriving DecidableEq, Repr

/-- The mutable service state: the state machine's current level and
`lastPublishedBrightness` (initialised to `-1` in `service.New`). -/
structure SvcState where
  currentLevel : BrightnessLevel
  lastPublishedBrightness : Int
deriving DecidableEq, Repr

/-- Outcome of one cycle: the new service state, the brightness value whose
hardware write was attempted (if any), the value of a successful store
publish (if any), and whether the cycle returned an error. -/
structure CycleResult where
  state : SvcState
  hwWrite : Option Int
  published : Option Int
  isError : Bool
deriving DecidableEq, Repr

/-- The tail of a cycle after the backlight adjustment: hardware readback,
then the republish gate.  A readback failure or publish failure only logs a
warning, leaving `lastPublishedBrightness` unchanged and the cycle
successful. -/
def cycleTail (threshold : Int) (env : CycleEnv) (s1 : SvcState)
    (hw : Option Int) : CycleResult :=
  match env.readback with
  | none => ⟨s1, hw, none, false⟩
  | some brightness =>
    if publishGate threshold s1.lastPublishedBrightness brightness then
      if env.publishOk then
        ⟨⟨s1.currentLevel, brightness⟩, hw, some brightness, false⟩
      else ⟨s1, hw, none, false⟩
    else ⟨s1, hw, none, false⟩

/-- One adjustment cycle (`Service.adjustBacklightBasedOnIlluminance`):
read illuminance (a failure aborts the cycle with an error before anything
else), run `AdjustBacklight` (updating `currentLevel` first; a failing
hardware write then aborts with an error), then `cycleTail`. -/
def runCycle (states : BrightnessLevel → StateConfig) (threshold : Int)
    (env : CycleEnv) (s : SvcState) : CycleResult :=
  match env.illum with
  | none => ⟨s, none, none, true⟩
  | some illuminance =>
    let result := AdjustBacklight states s.currentLevel illuminance
    let s1 : SvcState := ⟨result.1, s.lastPublishedBrightness⟩
    match result.2 with
    | some b =>
      if env.writeOk then cycleTail threshold env s1 (some b)
      else ⟨s1, some b, none, true⟩
    | none => cycleTail threshold env s1 none

/-- `AdjustBacklight` signals no write exactly when the level is unchanged. -/
theorem AdjustBacklight_snd_eq_none_iff (states : BrightnessLevel → StateConfig)
    (L : BrightnessLevel) (v : Int) :
    (AdjustBacklight states L v).2 = none ↔ adjustLevel states L v = L := by
  by_cases h : adjustLevel states L v = L <;> simp [AdjustBacklight, h]

/-- On a level change, `AdjustBacklight` signals the new level's configured
brightness. -/
theorem AdjustBacklight_snd_of_ne (states : BrightnessLevel → StateConfig)
    (L : BrightnessLevel) (v : Int) (h : adjustLevel states L v ≠ L) :
    (AdjustBacklight states L v).2 =
      some ((states (adjustLevel states L v)).Brightness) := by
  simp [AdjustBacklight, h]

/-- Behaviour of the cycle tail: it never errors, passes the hardware-write
record through, does not touch the level, changes `lastPublishedBrightness`
exactly to the successfully published value if any, and publishes nothing on
a readback failure or a store failure. -/
theorem cycleTail_spec (threshold : Int) (env : CycleEnv) (s1 : SvcState)
    (hw : Option Int) :
    (cycleTail threshold env s1 hw).isError = false ∧
    (cycleTail threshold env s1 hw).hwWrite = hw ∧
    (cycleTail threshold env s1 hw).state.currentLevel = s1.currentLevel ∧
    (cycleTail threshold env s1 hw).state.lastPublishedBrightness =
      ((cycleTail threshold env s1 hw).published.getD
        s1.lastPublishedBrightness) ∧
    (env.readback = none → (cycleTail threshold env s1 hw).published = none) ∧
    (env.publishOk = false →
      (cycleTail threshold env s1 hw).published = none) := by
  rcases hR : env.readback with _ | b
  · simp [cycleTail, hR]
  · cases hP : env.publishOk
    · simp only [cycleTail, hR, hP]
      split_ifs <;> simp_all
    · simp only [cycleTail, hR, hP]
      split_ifs <;> simp_all

/-- A failed illuminance read short-circuits the cycle. -/
theorem runCycle_illum_fail (states : BrightnessLevel → StateConfig)
    (threshold : Int) (env : CycleEnv) (s : SvcState)
    (hIll : env.illum = none) :
    runCycle states threshold env s = ⟨s, none, none, true⟩ := by
  simp [runCycle, hIll]

/-- A cycle whose adjustment signals no write proceeds straight to the
tail. -/
theorem runCycle_no_write (states : BrightnessLevel → StateConfig)
    (threshold : Int) (env : CycleEnv) (s : SvcState) (i : Int)
    (hIll : env.illum = some i)
    (hC : (AdjustBacklight states s.currentLevel i).2 = none) :
    runCycle states threshold env s =
      cycleTail threshold env
        ⟨(AdjustBacklight states s.currentLevel i).1,
          s.lastPublishedBrightness⟩ none := by
  simp [runCycle, hIll, hC]

/-- A cycle whose adjustment signals a write that fails stops with an error,
the level already updated. -/
theorem runCycle_write_fail (states : BrightnessLevel → StateConfig)
    (threshold : Int) (env : CycleEnv) (s : SvcState) (i b : Int)
    (hIll : env.illum = some i)
    (hC : (AdjustBacklight states s.currentLevel i).2 = some b)
    (hW : env.writeOk = false) :
    runCycle states threshold env s =
      ⟨⟨(AdjustBacklight states s.currentLevel i).1,
        s.lastPublishedBrightness⟩, some b, none, true⟩ := by
  simp [runCycle, hIll, hC, hW]

/-- A cycle whose adjustment signals a write that succeeds proceeds to the
tail with the written value recorded. -/
theorem runCycle_write_ok (states : BrightnessLevel → StateConfig)
    (threshold : Int) (env : CycleEnv) (s : SvcState) (i b : Int)
    (hIll : env.illum = some i)
    (hC : (AdjustBacklight states s.currentLevel i).2 = some b)
    (hW : env.writeOk = true) :
    runCycle states threshold env s =
      cycleTail threshold env
        ⟨(AdjustBacklight states s.currentLevel i).1,
          s.lastPublishedBrightness⟩ (some b) := by
  simp [runCycle, hIll, hC, hW]

/-- C5: a cycle errors exactly when the illuminance read fails or a level
change's hardware write fails; an illuminance-read failure aborts before any
hardware write and leaves the state untouched; a readback failure or a
publish failure yields no published value (warning only), and whenever
nothing was published `lastPublishedBrightness` is unchanged. -/
theorem cycle_error_policy (states : BrightnessLevel → StateConfig)
    (threshold : Int) (env : CycleEnv) (s : SvcState) :
    ((runCycle states threshold env s).isError = true ↔
      env.illum = none ∨ ∃ i, env.illum = some i ∧
        adjustLevel states s.currentLevel i ≠ s.currentLevel ∧
        env.writeOk = false) ∧
    (env.illum = none → (runCycle states threshold env s).hwWrite = none ∧
      (runCycle states threshold env s).state = s) ∧
    (env.readback = none →
      (runCycle states threshold env s).published = none) ∧
    (env.publishOk = false →
      (runCycle states threshold env s).published = none) ∧
    ((runCycle states threshold env s).published = none →
      (runCycle states threshold env s).state.lastPublishedBrightness =
        s.lastPublishedBrightness) := by
  rcases hIll : env.illum with _ | i
  · rw [runCycle_illum_fail states threshold env s hIll]
    simp [hIll]
  · rcases hC : (AdjustBacklight states s.currentLevel i).2 with _ | b
    · have hEq : adjustLevel states s.currentLevel i = s.currentLevel :=
        (AdjustBacklight_snd_eq_none_iff states s.currentLevel i).1 hC
      rw [runCycle_no_write states threshold env s i hIll hC]
      obtain ⟨t1, t2, t3, t4, t5, t6⟩ := cycleTail_spec threshold env
        ⟨(AdjustBacklight states s.currentLevel i).1,
          s.lastPublishedBrightness⟩ none
      refine ⟨?_, by simp [hIll], fun hR => t5 hR, fun hP => t6 hP, ?_⟩
      · rw [t1]
        simp [hIll, hEq]
      · intro hPub
        rw [t4, hPub]
        rfl
    · have hne : adjustLevel states s.currentLevel i ≠ s.currentLevel := by
        intro hEq
        rw [(AdjustBacklight_snd_eq_none_iff states s.currentLevel i).2 hEq]
          at hC
        exact Option.noConfusion hC
      cases hW : env.writeOk
      · rw [runCycle_write_fail states threshold env s i b hIll hC hW]
        refine ⟨⟨fun _ => Or.inr ⟨i, rfl, hne, rfl⟩, fun _ => rfl⟩,
          by simp [hIll], fun _ => rfl, fun _ => rfl, fun _ => rfl⟩
      · rw [runCycle_write_ok states threshold env s i b hIll hC hW]
        obtain ⟨t1, t2, t3, t4, t5, t6⟩ := cycleTail_spec threshold env
          ⟨(AdjustBacklight states s.currentLevel i).1,
            s.lastPublishedBrightness⟩ (some b)
        refine ⟨?_, by simp [hIll], fun hR => t5 hR, fun hP => t6 hP, ?_⟩
        · rw [t1]
          simp [hIll, hW]
        · intro hPub
          rw [t4, hPub]
          rfl

/-- Witness for `cycle_error_policy` at the default configuration: from
`Mid` with illuminance `41`, a successful write and a readback of `9950`
against the sentinel `-1`. -/
theorem cycle_error_policy_witness :
    ((runCycle defaultStates 512 ⟨some 41, true, some 9950, true⟩
        ⟨LevelMid, -1⟩).isError = true ↔
      (⟨some 41, true, some 9950, true⟩ : CycleEnv).illum = none ∨
        ∃ i, (⟨some 41, true, some 9950, true⟩ : CycleEnv).illum = some i ∧
          adjustLevel defaultStates
              (⟨LevelMid, -1⟩ : SvcState).currentLevel i ≠
            (⟨LevelMid, -1⟩ : SvcState).currentLevel ∧
          (⟨some 41, true, some 9950, true⟩ : CycleEnv).writeOk = false) ∧
    ((⟨some 41, true, some 9950, true⟩ : CycleEnv).illum = none →
      (runCycle defaultStates 512 ⟨some 41, true, some 9950, true⟩
        ⟨LevelMid, -1⟩).hwWrite = none ∧
      (runCycle defaultStates 512 ⟨some 41, true, some 9950, true⟩
        ⟨LevelMid, -1⟩).state = ⟨LevelMid, -1⟩) ∧
    ((⟨some 41, true, some 9950, true⟩ : CycleEnv).readback = none →
      (runCycle defaultStates 512 ⟨some 41, true, some 9950, true⟩
        ⟨LevelMid, -1⟩).published = none) ∧
    ((⟨some 41, true, some 9950, true⟩ : CycleEnv).publishOk = false →
      (runCycle defaultStates 512 ⟨some 41, true, some 9950, true⟩
        ⟨LevelMid, -1⟩).published = none) ∧
    ((runCycle defaultStates 512 ⟨some 41, true, some 9950, true⟩
        ⟨LevelMid, -1⟩).published = none →
      (runCycle defaultStates 512 ⟨some 41, true, some 9950, true⟩
          ⟨LevelMid, -1⟩).state.lastPublishedBrightness =
        (⟨LevelMid, -1⟩ : SvcState).lastPublishedBrightness) :=
  cycle_error_policy defaultStates 512 ⟨some 41, true, some 9950, true⟩
    ⟨LevelMid, -1⟩

/-- C9: when the adjustment computes a level change and the hardware write
fails, the cycle errors but `currentLevel` keeps the new level (no
rollback); a following cycle whose illuminance lies in the new level's dead
zone therefore attempts no hardware write, so the failed write is not
retried. -/
theorem failed_write_no_rollback (states : BrightnessLevel → StateConfig)
    (threshold : Int) (env1 env2 : CycleEnv) (s : SvcState) (i v : Int)
    (h1 : env1.illum = some i)
    (h2 : adjustLevel states s.currentLevel i ≠ s.currentLevel)
    (h3 : env1.writeOk = false)
    (h4 : env2.illum = some v)
    (hup : 0 < (states (adjustLevel states s.currentLevel i)).ThresholdUp)
    (hdown : 0 < (states (adjustLevel states s.currentLevel i)).ThresholdDown)
    (hlo : (states (adjustLevel states s.currentLevel i)).ThresholdDown ≤ v)
    (hhi : v ≤ (states (adjustLevel states s.currentLevel i)).ThresholdUp) :
    (runCycle states threshold env1 s).isError = true ∧
    (runCycle states threshold env1 s).state.currentLevel =
      adjustLevel states s.currentLevel i ∧
    (runCycle states threshold env2
      (runCycle states threshold env1 s).state).hwWrite = none := by
  have hsnd := AdjustBacklight_snd_of_ne states s.currentLevel i h2
  have hfst := AdjustBacklight_fst states s.currentLevel i
  rw [runCycle_write_fail states threshold env1 s i _ h1 hsnd h3]
  refine ⟨rfl, hfst, ?_⟩
  rw [hfst]
  have hstay := adjustLevel_stay states (adjustLevel states s.currentLevel i)
    v hup hdown hlo hhi
  have hsnd2 : (AdjustBacklight states
      ((⟨adjustLevel states s.currentLevel i,
        s.lastPublishedBrightness⟩ : SvcState).currentLevel) v).2 = none :=
    (AdjustBacklight_snd_eq_none_iff states _ v).2 hstay
  rw [runCycle_no_write states threshold env2 _ v h4 hsnd2]
  exact (cycleTail_spec threshold env2 _ none).2.1

/-- Witness for `failed_write_no_rollback` at the default configuration:
from `Mid`, illuminance `41` computes `High`, the write fails, the level
stays `High`, and a following sample of `50` (inside `High`'s `35`/`80`
dead zone) attempts no write. -/
theorem failed_write_no_rollback_witness :
    ((⟨some 41, false, none, false⟩ : CycleEnv).illum = some 41 ∧
      adjustLevel defaultStates LevelMid 41 ≠ LevelMid ∧
      (⟨some 41, false, none, false⟩ : CycleEnv).writeOk = false ∧
      (⟨some 50, true, none, true⟩ : CycleEnv).illum = some 50 ∧
      0 < (defaultStates (adjustLevel defaultStates LevelMid 41)).ThresholdUp ∧
      0 < (defaultStates (adjustLevel defaultStates LevelMid 41)).ThresholdDown ∧
      (defaultStates (adjustLevel defaultStates LevelMid 41)).ThresholdDown ≤ 50 ∧
      (50 : Int) ≤
        (defaultStates (adjustLevel defaultStates LevelMid 41)).ThresholdUp) ∧
    ((runCycle defaultStates 512 ⟨some 41, false, none, false⟩
        ⟨LevelMid, -1⟩).isError = true ∧
      (runCycle defaultStates 512 ⟨some 41, false, none, false⟩
          ⟨LevelMid, -1⟩).state.currentLevel =
        adjustLevel defaultStates LevelMid 41 ∧
      (runCycle defaultStates 512 ⟨some 50, true, none, true⟩
        (runCycle defaultStates 512 ⟨some 41, false, none, false⟩
          ⟨LevelMid, -1⟩).state).hwWrite = none) :=
  ⟨by decide,
   failed_write_no_rollback defaultStates 512 ⟨some 41, false, none, false⟩
     ⟨some 50, true, none, true⟩ ⟨LevelMid, -1⟩ 41 50 rfl (by decide) rfl rfl
     (by decide) (by decide) (by decide) (by decide)⟩

/-- The loop as the fold of `runCycle` over a list of per-cycle
environments, collecting the successfully published values. -/
def runTrace (states : BrightnessLevel → StateConfig) (threshold : Int) :
    List CycleEnv → SvcState → SvcState × List Int
  | [], s => (s, [])
  | env :: rest, s =>
    let r := runCycle states threshold env s
    let t := runTrace states threshold rest r.state
    (t.1, r.published.toList ++ t.2)

/-- One cycle sets `lastPublishedBrightness` to the successfully published
value, if any, and otherwise leaves it unchanged. -/
theorem runCycle_lastPub (states : BrightnessLevel → StateConfig)
    (threshold : Int) (env : CycleEnv) (s : SvcState) :
    (runCycle states threshold env s).state.lastPublishedBrightness =
      (runCycle states threshold env s).published.getD
        s.lastPublishedBrightness := by
  rcases hIll : env.illum with _ | i
  · rw [runCycle_illum_fail states threshold env s hIll]
    rfl
  · rcases hC : (AdjustBacklight states s.currentLevel i).2 with _ | b
    · rw [runCycle_no_write states threshold env s i hIll hC]
      exact (cycleTail_spec threshold env _ none).2.2.2.1
    · cases hW : env.writeOk
      · rw [runCycle_write_fail states threshold env s i b hIll hC hW]
        rfl
      · rw [runCycle_write_ok states threshold env s i b hIll hC hW]
        exact (cycleTail_spec threshold env _ (some b)).2.2.2.1

/-- Across any run, the final `lastPublishedBrightness` is the value of the
last successful publish, defaulting to the starting value when none
occurred. -/
theorem runTrace_lastPub (states : BrightnessLevel → StateConfig)
    (threshold : Int) (envs : List CycleEnv) :
    ∀ s : SvcState,
      (runTrace states threshold envs s).1.lastPublishedBrightness =
        (runTrace states threshold envs s).2.getLastD
          s.lastPublishedBrightness := by
  induction envs with
  | nil => intro s; simp [runTrace]
  | cons env rest ih =>
    intro s
    have hstep := runCycle_lastPub states threshold env s
    rcases hPub : (runCycle states threshold env s).published with _ | v
    · rw [hPub] at hstep
      simp only [runTrace, hPub, Option.toList, List.nil_append]
      rw [ih (runCycle states threshold env s).state, hstep]
      rfl
    · rw [hPub] at hstep
      simp only [runTrace, hPub, Option.toList, List.cons_append,
        List.nil_append, List.getLastD_cons]
      rw [ih (runCycle states threshold env s).state, hstep]
      rfl

/-- C10: after every completed cycle `lastPublishedBrightness` equals the
value of the cycle's successful publish when there was one and is otherwise
unchanged; hence a run started from the sentinel `-1` (as `service.New`
initialises it) ends with `lastPublishedBrightness` equal to the value
passed to the most recent successful publish, or still `-1` when no publish
ever succeeded. -/
theorem lastPublished_invariant (states : BrightnessLevel → StateConfig)
    (threshold : Int) (env : CycleEnv) (s : SvcState)
    (envs : List CycleEnv) (L0 : BrightnessLevel) :
    ((runCycle states threshold env s).state.lastPublishedBrightness =
      (runCycle states threshold env s).published.getD
        s.lastPublishedBrightness) ∧
    (runTrace states threshold envs ⟨L0, -1⟩).1.lastPublishedBrightness =
      (runTrace states threshold envs ⟨L0, -1⟩).2.getLastD (-1) :=
  ⟨runCycle_lastPub states threshold env s,
   runTrace_lastPub states threshold envs ⟨L0, -1⟩⟩


/-! ## Sensor gateway (`internal/redis/redis.go`) -/

/-- Value of a decimal digit character, `none` for anything else. -/
def digitValue (c : Char) : Option Nat :=
  if c.isDigit then some (c.toNat - 48) else none

/-- Base-10 value of a digit run accumulated left to right, `none` as soon
as a non-digit occurs. -/
def digitsToNat : List Char → Nat → Option Nat
  | [], acc => some acc
  | c :: cs, acc =>
    match digitValue c with
    | some d => digitsToNat cs (10 * acc + d)
    | none => none

/-- The unsigned part of a plain decimal number: digits, optionally one
point followed by digits, at least one digit overall.  The result is the
triple (integer part, fractional digits value, fractional digit count),
which denotes the exact rational `intPart + frac / 10 ^ count`. -/
def parseUnsignedAux (ip : List Char) : List Char → Option (Nat × Nat × Nat)
  | [] =>
    if ip.isEmpty then none
    else (digitsToNat ip 0).map (fun n => (n, 0, 0))
  | c :: fr =>
    if c = '.' ∧ fr.all Char.isDigit ∧ ¬(ip.isEmpty ∧ fr.isEmpty) then
      match digitsToNat ip 0, digitsToNat fr 0 with
      | some n, some f => some (n, f, fr.length)
      | _, _ => none
    else none

/-- Split the input at its leading digit run and hand both parts to
`parseUnsignedAux`. -/
def parseUnsigned (cs : List Char) : Option (Nat × Nat × Nat) :=
  parseUnsignedAux (cs.takeWhile Char.isDigit)
    (cs.drop (cs.takeWhile Char.isDigit).length)

/-- Model of `strconv.ParseFloat` on the plain decimal forms the service
deals in (optional sign, digits, optional fraction): the sign flag together
with the unsigned decimal components, or `none` on a parse failure.  Binary
floating point is abstracted by the exact decimal value: for plain decimal
input the float64 rounding of `ParseFloat` is far too small to carry a
non-integer value across an integer boundary, so the truncation the service
applies next is unaffected. -/
def parseFloatAux : List Char → Option (Bool × Nat × Nat × Nat)
  | [] => none
  | c :: rest =>
    if c = '-' then (parseUnsigned rest).map (fun d => (true, d))
    else if c = '+' then (parseUnsigned rest).map (fun d => (false, d))
    else (parseUnsigned (c :: rest)).map (fun d => (false, d))

/-- `parseFloat` on the string's character list. -/
def parseFloat (s : String) : Option (Bool × Nat × Nat × Nat) :=
  parseFloatAux s.toList

/-- The exact rational value a parsed decimal denotes. -/
def decimalValue : Bool × Nat × Nat × Nat → ℚ
  | (neg, n, f, k) =>
    (if neg then (-1 : ℚ) else 1) * ((n : ℚ) + (f : ℚ) / (10 : ℚ) ^ k)

/-- Go's `int(floatValue)` conversion, truncation toward zero: on a decimal
with fractional part below one this is the sign-adjusted integer part
(`truncDecimal_eq_floor_ceil` identifies it with the floor for nonnegative
values and the ceiling for negative ones). -/
def truncDecimal : Bool × Nat × Nat × Nat → Int
  | (neg, n, _, _) => if neg then -(n : Int) else (n : Int)

/-- `Client.GetIlluminanceValue`: an absent `dashboard brightness` field
yields `0` without error; a present field is parsed as a float (failure is
an error) and truncated to an integer. -/
def GetIlluminanceValue (field : Option String) : Except String Int :=
  match field with
  | none => Except.ok 0
  | some result =>
    match parseFloat result with
    | none => Except.error "invalid illuminance value (not a float)"
    | some floatValue => Except.ok (truncDecimal floatValue)

/-- A decimal digit's value is at most nine. -/
theorem digitValue_le_nine (c : Char) (d : Nat) (h : digitValue c = some d) :
    d ≤ 9 := by
  simp only [digitValue] at h
  split_ifs at h with hc
  · simp [Char.isDigit] at hc
    have h57 : c.toNat ≤ 57 := by
      simp [Char.toNat]
      exact_mod_cast hc.2
    injection h with h
    omega

/-- The value of a digit run is bounded by the run's length. -/
theorem digitsToNat_lt (cs : List Char) :
    ∀ acc r : Nat, digitsToNat cs acc = some r →
      r < (acc + 1) * 10 ^ cs.length := by
  induction cs with
  | nil =>
    intro acc r h
    simp only [digitsToNat, Option.some_inj] at h
    simp [← h]
  | cons c cs ih =>
    intro acc r h
    simp only [digitsToNat] at h
    rcases hdv : digitValue c with _ | d
    · rw [hdv] at h
      exact Option.noConfusion h
    · rw [hdv] at h
      have hd9 := digitValue_le_nine c d hdv
      have hr := ih (10 * acc + d) r h
      have hstep : (10 * acc + d + 1) * 10 ^ cs.length ≤
          (acc + 1) * 10 ^ (c :: cs).length := by
        simp only [List.length_cons, pow_succ]
        calc (10 * acc + d + 1) * 10 ^ cs.length
            ≤ (10 * (acc + 1)) * 10 ^ cs.length := by
              exact Nat.mul_le_mul_right _ (by omega)
          _ = (acc + 1) * (10 ^ cs.length * 10) := by ring
      exact lt_of_lt_of_le hr hstep

/-- A successfully parsed unsigned decimal has its fractional value below
one unit of its fractional length. -/
theorem parseUnsigned_frac_lt (cs : List Char) (n f k : Nat)
    (h : parseUnsigned cs = some (n, f, k)) : f < 10 ^ k := by
  rw [parseUnsigned] at h
  rcases hrest : List.drop (List.takeWhile Char.isDigit cs).length cs
    with _ | ⟨c, fr⟩ <;> rw [hrest] at h
  · simp only [parseUnsignedAux] at h
    split_ifs at h
    rcases hip : digitsToNat (List.takeWhile Char.isDigit cs) 0 with _ | v <;>
      rw [hip] at h
    · exact Option.noConfusion h
    · simp only [Option.map_some', Option.some_inj, Prod.mk.injEq] at h
      obtain ⟨-, hf, hk⟩ := h
      simp [← hf, ← hk]
  · simp only [parseUnsignedAux] at h
    split_ifs at h
    rcases hip : digitsToNat (List.takeWhile Char.isDigit cs) 0 with _ | v <;>
      rw [hip] at h
    · exact Option.noConfusion h
    · rcases hfr : digitsToNat fr 0 with _ | w <;> rw [hfr] at h
      · exact Option.noConfusion h
      · simp only [Option.some_inj, Prod.mk.injEq] at h
        obtain ⟨-, hf, hk⟩ := h
        have hw := digitsToNat_lt fr 0 w hfr
        rw [← hf, ← hk]
        simpa using hw

/-- A successfully parsed decimal has its fractional value below one unit
of its fractional length. -/
theorem parseFloat_frac_lt (s : String) (neg : Bool) (n f k : Nat)
    (h : parseFloat s = some (neg, n, f, k)) : f < 10 ^ k := by
  rw [parseFloat] at h
  rcases hl : s.toList with _ | ⟨c, rest⟩ <;> rw [hl] at h
  · exact Option.noConfusion h
  · simp only [parseFloatAux] at h
    split_ifs at h
    · rcases hpu : parseUnsigned rest with _ | d <;> rw [hpu] at h
      · exact Option.noConfusion h
      · obtain ⟨n1, f1, k1⟩ := d
        simp only [Option.map_some', Option.some_inj, Prod.mk.injEq] at h
        obtain ⟨-, -, hf, hk⟩ := h
        exact hf ▸ hk ▸ parseUnsigned_frac_lt rest n1 f1 k1 hpu
    · rcases hpu : parseUnsigned rest with _ | d <;> rw [hpu] at h
      · exact Option.noConfusion h
      · obtain ⟨n1, f1, k1⟩ := d
        simp only [Option.map_some', Option.some_inj, Prod.mk.injEq] at h
        obtain ⟨-, -, hf, hk⟩ := h
        exact hf ▸ hk ▸ parseUnsigned_frac_lt rest n1 f1 k1 hpu
    · rcases hpu : parseUnsigned (c :: rest) with _ | d <;> rw [hpu] at h
      · exact Option.noConfusion h
      · obtain ⟨n1, f1, k1⟩ := d
        simp only [Option.map_some', Option.some_inj, Prod.mk.injEq] at h
        obtain ⟨-, -, hf, hk⟩ := h
        exact hf ▸ hk ▸ parseUnsigned_frac_lt (c :: rest) n1 f1 k1 hpu

/-- Truncation toward zero: on a parsed decimal (fraction below one unit)
`truncDecimal` is the floor of the denoted value when it is nonnegative and
its ceiling when it is negative. -/
theorem truncDecimal_eq_floor_ceil (neg : Bool) (n f k : Nat)
    (hf : f < 10 ^ k) :
    truncDecimal (neg, n, f, k) =
      (if decimalValue (neg, n, f, k) < 0 then ⌈decimalValue (neg, n, f, k)⌉
       else ⌊decimalValue (neg, n, f, k)⌋) := by
  have hpow : (0 : ℚ) < (10 : ℚ) ^ k := by positivity
  have hx0 : (0 : ℚ) ≤ (f : ℚ) / (10 : ℚ) ^ k :=
    div_nonneg (by positivity) (le_of_lt hpow)
  have hx1 : (f : ℚ) / (10 : ℚ) ^ k < 1 := by
    rw [div_lt_one hpow]
    exact_mod_cast hf
  have hxlo : (n : ℚ) ≤ (n : ℚ) + (f : ℚ) / (10 : ℚ) ^ k :=
    le_add_of_nonneg_right hx0
  have hxhi : (n : ℚ) + (f : ℚ) / (10 : ℚ) ^ k < (n : ℚ) + 1 := by
    linarith
  have hxnn : (0 : ℚ) ≤ (n : ℚ) + (f : ℚ) / (10 : ℚ) ^ k :=
    le_trans (by positivity) hxlo
  have hfloor : ⌊(n : ℚ) + (f : ℚ) / (10 : ℚ) ^ k⌋ = (n : ℤ) := by
    rw [Int.floor_eq_iff]
    constructor
    · push_cast
      exact hxlo
    · push_cast
      exact hxhi
  cases neg with
  | false =>
    have hval : decimalValue (false, n, f, k) =
        (n : ℚ) + (f : ℚ) / (10 : ℚ) ^ k := by
      simp [decimalValue]
    rw [hval, if_neg (not_lt.mpr hxnn)]
    simp [truncDecimal, hfloor]
  | true =>
    have hval : decimalValue (true, n, f, k) =
        -((n : ℚ) + (f : ℚ) / (10 : ℚ) ^ k) := by
      simp [decimalValue]
    rw [hval]
    by_cases hneg : -((n : ℚ) + (f : ℚ) / (10 : ℚ) ^ k) < 0
    · rw [if_pos hneg, Int.ceil_neg]
      simp [truncDecimal, hfloor]
    · have hzero : (n : ℚ) + (f : ℚ) / (10 : ℚ) ^ k = 0 :=
        le_antisymm (by linarith [not_lt.mp hneg]) hxnn
      have hn0 : (n : ℚ) = 0 := le_antisymm (hzero ▸ hxlo) (by positivity)
      have hn0' : n = 0 := by exact_mod_cast hn0
      rw [if_neg hneg, hzero, neg_zero, Int.floor_zero]
      simp [truncDecimal, hn0']

/-- C6: an absent store field yields `0` without error; a present but
unparseable field yields an error; a parseable decimal is truncated toward
zero (floor of its value when nonnegative, ceiling when negative), so
`42.7` gives `42` and `-10.5` gives `-10`. -/
theorem getIlluminance_spec (s1 s2 : String) (d : Bool × Nat × Nat × Nat) :
    GetIlluminanceValue none = Except.ok 0 ∧
    (parseFloat s1 = none →
      GetIlluminanceValue (some s1) =
        Except.error "invalid illuminance value (not a float)") ∧
    (parseFloat s2 = some d →
      GetIlluminanceValue (some s2) = Except.ok (truncDecimal d) ∧
      truncDecimal d =
        (if decimalValue d < 0 then ⌈decimalValue d⌉ else ⌊decimalValue d⌋)) ∧
    GetIlluminanceValue (some "42.7") = Except.ok 42 ∧
    GetIlluminanceValue (some "-10.5") = Except.ok (-10) := by
  refine ⟨rfl, ?_, ?_, rfl, rfl⟩
  · intro h
    simp [GetIlluminanceValue, h]
  · intro h
    obtain ⟨neg, n, f, k⟩ := d
    exact ⟨by simp [GetIlluminanceValue, h],
      truncDecimal_eq_floor_ceil neg n f k
        (parseFloat_frac_lt s2 neg n f k h)⟩

/-- Witness for `getIlluminance_spec`: `"abc"` fails to parse and errors,
while `"42.7"` parses to components `(+, 42, 7, 1)` and truncates to `42`. -/
theorem getIlluminance_spec_witness :
    (parseFloat "abc" = none ∧
      parseFloat "42.7" = some (false, 42, 7, 1)) ∧
    (GetIlluminanceValue none = Except.ok 0 ∧
      GetIlluminanceValue (some "abc") =
        Except.error "invalid illuminance value (not a float)" ∧
      (GetIlluminanceValue (some "42.7") =
          Except.ok (truncDecimal (false, 42, 7, 1)) ∧
        truncDecimal (false, 42, 7, 1) =
          (if decimalValue (false, 42, 7, 1) < 0 then
            ⌈decimalValue (false, 42, 7, 1)⌉
           else ⌊decimalValue (false, 42, 7, 1)⌋)) ∧
      GetIlluminanceValue (some "42.7") = Except.ok 42 ∧
      GetIlluminanceValue (some "-10.5") = Except.ok (-10)) := by
  have h := getIlluminance_spec "abc" "42.7" (false, 42, 7, 1)
  exact ⟨⟨by decide, by decide⟩,
    ⟨h.1, h.2.1 (by decide), h.2.2.1 (by decide), h.2.2.2.1, h.2.2.2.2⟩⟩

end DbcBacklight
